import Mathlib

/-
Verification of the ff-proxy core (feature-flag edge relay) against its
natural-language specification.  The Go sources are shallowly embedded:
pure logic becomes Lean functions, stateful repositories become explicit
state passing, machine words become `Nat` with explicit `% 2^32`, fallible
calls return `Except`/`Option`, and a Go panic is modelled as `Option.none`
at the outermost layer.  External collaborators (the shared KV store, the
upstream HTTP client, JSON codecs) enter as oracle parameters.
-/

namespace FFProxy

/-! ## SHA-256 over byte lists

`domain.NewAuthAPIKey` hashes an API key before it is stored.  The hash is
the standard SHA-256; words are `Nat` reduced mod `2^32`. -/

/-- `2^32`, the SHA-256 word modulus. -/
def w32 : Nat := 4294967296

/-- Right-rotation of a 32-bit word held in a `Nat`. -/
def rotr32 (n x : Nat) : Nat :=
  ((x >>> n) ||| ((x <<< (32 - n)) % w32)) % w32

/-- Bitwise complement within 32 bits. -/
def not32 (x : Nat) : Nat := x ^^^ (w32 - 1)

/-- The 64 SHA-256 round constants (FIPS 180-4), written in decimal. -/
def sha256K : List Nat :=
  [1116352408, 1899447441, 3049323471, 3921009573,
   961987163, 1508970993, 2453635748, 2870763221,
   3624381080, 310598401, 607225278, 1426881987,
   1925078388, 2162078206, 2614888103, 3248222580,
   3835390401, 4022224774, 264347078, 604807628,
   770255983, 1249150122, 1555081692, 1996064986,
   2554220882, 2821834349, 2952996808, 3210313671,
   3336571891, 3584528711, 113926993, 338241895,
   666307205, 773529912, 1294757372, 1396182291,
   1695183700, 1986661051, 2177026350, 2456956037,
   2730485921, 2820302411, 3259730800, 3345764771,
   3516065817, 3600352804, 4094571909, 275423344,
   430227734, 506948616, 659060556, 883997877,
   958139571, 1322822218, 1537002063, 1747873779,
   1955562222, 2024104815, 2227730452, 2361852424,
   2428436474, 2756734187, 3204031479, 3329325298]

/-- The initial SHA-256 hash state (FIPS 180-4), written in decimal. -/
def sha256H0 : List Nat :=
  [1779033703, 3144134277, 1013904242, 2773480762,
   1359893119, 2600822924, 528734635, 1541459225]

/-- `n` rendered as `k` big-endian bytes. -/
def bytesBE (k n : Nat) : List Nat :=
  (List.range k).map (fun i => (n >>> (8 * (k - 1 - i))) % 256)

/-- SHA-256 padding: append `0x80`, zero bytes to 56 mod 64, then the
bit length as 8 big-endian bytes. -/
def sha256pad (msg : List Nat) : List Nat :=
  let z := (119 - msg.length % 64) % 64
  msg ++ [0x80] ++ List.replicate z 0 ++ bytesBE 8 (8 * msg.length)

/-- Big-endian 32-bit words from a byte list (length a multiple of 4). -/
def wordsOfBytes : List Nat → List Nat
  | a :: b :: c :: d :: rest =>
      (((a * 256 + b) * 256 + c) * 256 + d) :: wordsOfBytes rest
  | _ => []

/-- Extend one 16-word block to the 64-entry message schedule. -/
def sha256extend (w16 : List Nat) : List Nat :=
  (List.range 48).foldl
    (fun w _ =>
      let i := w.length
      let x15 := w.getD (i - 15) 0
      let x2 := w.getD (i - 2) 0
      let s0 := rotr32 7 x15 ^^^ rotr32 18 x15 ^^^ (x15 >>> 3)
      let s1 := rotr32 17 x2 ^^^ rotr32 19 x2 ^^^ (x2 >>> 10)
      w ++ [(w.getD (i - 16) 0 + s0 + w.getD (i - 7) 0 + s1) % w32])
    w16

/-- The SHA-256 compression function on one 64-entry schedule. -/
def sha256compress (hs ws : List Nat) : List Nat :=
  let fin := (List.range 64).foldl
    (fun st i =>
      let a := st.getD 0 0
      let b := st.getD 1 0
      let c := st.getD 2 0
      let d := st.getD 3 0
      let e := st.getD 4 0
      let f := st.getD 5 0
      let g := st.getD 6 0
      let h := st.getD 7 0
      let s1 := rotr32 6 e ^^^ rotr32 11 e ^^^ rotr32 25 e
      let ch := (e &&& f) ^^^ (not32 e &&& g)
      let t1 := (h + s1 + ch + sha256K.getD i 0 + ws.getD i 0) % w32
      let s0 := rotr32 2 a ^^^ rotr32 13 a ^^^ rotr32 22 a
      let maj := (a &&& b) ^^^ (a &&& c) ^^^ (b &&& c)
      let t2 := (s0 + maj) % w32
      [(t1 + t2) % w32, a, b, c, (d + t1) % w32, e, f, g])
    hs
  (List.range 8).map (fun i => (hs.getD i 0 + fin.getD i 0) % w32)

/-- SHA-256 of a byte list, as the 8 words of the digest. -/
def sha256 (msg : List Nat) : List Nat :=
  let ws := wordsOfBytes (sha256pad msg)
  let nblocks := ws.length / 16
  (List.range nblocks).foldl
    (fun hs b =>
      sha256compress hs (sha256extend ((List.range 16).map
        (fun i => ws.getD (16 * b + i) 0))))
    sha256H0

/-- A hex digit character. -/
def hexDigit (n : Nat) : Char := "0123456789abcdef".data.getD n '0'

/-- A 32-bit word as 8 lowercase hex characters. -/
def wordHex (x : Nat) : List Char :=
  (List.range 8).map (fun i => hexDigit ((x >>> (4 * (7 - i))) % 16))

/-- The lowercase hex digest of a byte list. -/
def sha256hex (msg : List Nat) : String :=
  String.mk ((sha256 msg).map wordHex).flatten

/-- The bytes of a string.  API keys are ASCII, where the UTF-8 encoding is
one byte per character. -/
def strBytes (s : String) : List Nat := s.data.map Char.toNat

/-! ## Domain model

The `domain` Go package is not under `src/`; its message constants and
`NewAuthAPIKey` are modelled from the spec (§3): domains are
`flag | target-segment | proxy`, events are `create | patch | delete |
proxy-key-deleted | environment-added | environment-removed |
api-key-added | api-key-removed`, and an API key is SHA-256 hashed into an
`AuthAPIKey` of the form `auth-key-<hex>`. -/

def MsgDomainFeature : String := "flag"

def MsgDomainSegment : String := "target-segment"

def MsgDomainProxy : String := "proxy"

def EventCreate : String := "create"

def EventPatch : String := "patch"

def EventDelete : String := "delete"

def EventProxyKeyDeleted : String := "proxy-key-deleted"

def EventEnvironmentAdded : String := "environment-added"

def EventEnvironmentRemoved : String := "environment-removed"

def EventAPIKeyAdded : String := "api-key-added"

def EventAPIKeyRemoved : String := "api-key-removed"

deriving instance DecidableEq for Except

/-- An SSE change message (spec §3). -/
structure SSEMessage where
  Domain : String
  Event : String
  Identifier : String
  Environments : List String
  APIKey : String
deriving DecidableEq, Repr

/-- Modelled from the spec: `domain.NewAuthAPIKey` is not under `src/`.
Per §3 an API key is hashed (SHA-256) to form an `AuthAPIKey` of the form
`auth-key-<hex>`. -/
def NewAuthAPIKey (apiKey : String) : String :=
  "auth-key-" ++ sha256hex (strBytes apiKey)

/-- One environment of a `ProxyConfig` page (Go `domain.Environments`):
its id, raw API keys, and its feature-config and segment payloads.  The
payloads are opaque blobs to the logic verified here, so they are kept as
plain strings. -/
structure Environments where
  ID : String
  APIKeys : List String
  FeatureConfigs : List String
  Segments : List String
deriving DecidableEq, Repr

/-- A `ProxyConfig` pagination unit: a list of environments. -/
structure ProxyConfig where
  envs : List Environments
deriving DecidableEq, Repr

/-! ## Repositories over the shared cache

The `repository` package is not under `src/`; the repos are modelled from
spec §4.3 as typed association-list surfaces keyed per entity:
`authRecords` is `AuthAPIKey → EnvironmentID`, `envApiKeys` holds the
per-environment key list, and `flags`/`segments` hold the per-environment
collection entries (`env-<id>-flags`, `env-<id>-segments`). -/

structure CacheState where
  authRecords : List (String × String)
  envApiKeys : List (String × List String)
  flags : List (String × List String)
  segments : List (String × List String)
deriving DecidableEq, Repr

/-- The empty cache. -/
def emptyCache : CacheState := ⟨[], [], [], []⟩

/-- Insert-or-overwrite in an association list. -/
def setAssoc {α : Type} (k : String) (v : α) (m : List (String × α)) :
    List (String × α) :=
  (k, v) :: m.filter (fun p => p.1 != k)

/-- `authRepo.Add`: store each `AuthConfig` record (key → environment). -/
def authRepoAdd (configs : List (String × String)) (c : CacheState) :
    CacheState :=
  ⟨configs.foldl (fun m p => setAssoc p.1 p.2 m) c.authRecords,
   c.envApiKeys, c.flags, c.segments⟩

/-- `authRepo.Remove`: delete the records with the given cache keys. -/
def authRepoRemove (keys : List String) (c : CacheState) : CacheState :=
  ⟨c.authRecords.filter (fun p => !(keys.contains p.1)),
   c.envApiKeys, c.flags, c.segments⟩

/-- `authRepo.PatchAPIConfigForEnvironment`: append or drop one key in the
environment's key list (spec §4.3, `±` by the triggering event). -/
def patchAPIConfigForEnvironment (env apiKey event : String)
    (c : CacheState) : CacheState :=
  let old := (c.envApiKeys.lookup env).getD []
  let upd := if event = EventAPIKeyAdded then old ++ [apiKey]
    else old.filter (fun k => k != apiKey)
  ⟨c.authRecords, setAssoc env upd c.envApiKeys, c.flags, c.segments⟩

/-- `authRepo.AddAPIConfigsForEnvironment`: set the environment's key list. -/
def addAPIConfigsForEnvironment (env : String) (apiKeys : List String)
    (c : CacheState) : CacheState :=
  ⟨c.authRecords, setAssoc env apiKeys c.envApiKeys, c.flags, c.segments⟩

/-- `authRepo.RemoveAllKeysForEnvironment`: drop every auth record mapped
to the environment, along with its key list. -/
def removeAllKeysForEnvironment (env : String) (c : CacheState) :
    CacheState :=
  ⟨c.authRecords.filter (fun p => p.2 != env),
   c.envApiKeys.filter (fun p => p.1 != env), c.flags, c.segments⟩

/-- `flagRepo.Add`: store the environment's feature-config collection. -/
def flagRepoAdd (env : String) (configs : List String) (c : CacheState) :
    CacheState :=
  ⟨c.authRecords, c.envApiKeys, setAssoc env configs c.flags, c.segments⟩

/-- `flagRepo.Remove`: drop the environment's feature-config collection. -/
def flagRepoRemove (env : String) (c : CacheState) : CacheState :=
  ⟨c.authRecords, c.envApiKeys, c.flags.filter (fun p => p.1 != env),
   c.segments⟩

/-- `segmentRepo.Add`: store the environment's segment collection. -/
def segmentRepoAdd (env : String) (configs : List String) (c : CacheState) :
    CacheState :=
  ⟨c.authRecords, c.envApiKeys, c.flags, setAssoc env configs c.segments⟩

/-- `segmentRepo.Remove`: drop the environment's segment collection. -/
def segmentRepoRemove (env : String) (c : CacheState) : CacheState :=
  ⟨c.authRecords, c.envApiKeys, c.flags,
   c.segments.filter (fun p => p.1 != env)⟩

/-! ## remote.Config: Populate and FetchAndPopulate (src/unnamed/part_002)

The shared cache can refuse a write; each repo write gets a failure oracle
keyed by the environment id it is called for.  `populate` and the
`Populate` fan-out follow the source.  The concurrent per-environment
goroutines of `Populate` are linearised in source order: each goroutine
writes only its own environment's keys, and the returned error is the
first non-nil value read from the error channel, which the linearisation
realises as the first failing environment in traversal order. -/

structure RepoOracles where
  authAddErr : String → Option String
  authAddListErr : String → Option String
  flagAddErr : String → Option String
  segmentAddErr : String → Option String

/-- Per-environment population (Go `populate`, part_002:186-220): each
repo write is guarded by a `len > 0` check "to ensure we do not insert
empty keys", and a failed write aborts with a wrapped error. -/
def populate (o : RepoOracles) (c : CacheState) (apiKeys : List String)
    (authConfig : List (String × String)) (env : Environments) :
    Except String CacheState :=
  match (if apiKeys.length > 0 then o.authAddErr env.ID else none) with
  | some e => .error ("failed to add auth config to cache: " ++ e)
  | none =>
  let c := if apiKeys.length > 0 then authRepoAdd authConfig c else c
  match (if authConfig.length > 0 then o.authAddListErr env.ID else none) with
  | some e => .error ("failed to add auth config to cache: " ++ e)
  | none =>
  let c := if authConfig.length > 0 then
      addAPIConfigsForEnvironment env.ID apiKeys c else c
  match (if env.FeatureConfigs.length > 0 then o.flagAddErr env.ID
      else none) with
  | some e => .error ("failed to add flag config to cache: " ++ e)
  | none =>
  let c := if env.FeatureConfigs.length > 0 then
      flagRepoAdd env.ID env.FeatureConfigs c else c
  match (if env.Segments.length > 0 then o.segmentAddErr env.ID
      else none) with
  | some e => .error ("failed to add segment config to cache: " ++ e)
  | none =>
  .ok (if env.Segments.length > 0 then
      segmentRepoAdd env.ID env.Segments c else c)

/-- The hashed key list a `Populate` goroutine builds from an environment. -/
def envHashedKeys (env : Environments) : List String :=
  env.APIKeys.map NewAuthAPIKey

/-- The `AuthConfig` records a `Populate` goroutine builds. -/
def envAuthConfig (env : Environments) : List (String × String) :=
  env.APIKeys.map (fun k => (NewAuthAPIKey k, env.ID))

/-- All environments of the staged `ProxyConfig` pages, in source order. -/
def allEnvs (proxyConfig : List ProxyConfig) : List Environments :=
  (proxyConfig.map ProxyConfig.envs).flatten

/-- One linearised `Populate` goroutine applied to the accumulated state. -/
def populateStep (o : RepoOracles) (acc : Except String CacheState)
    (env : Environments) : Except String CacheState :=
  match acc with
  | .error e => .error e
  | .ok c => populate o c (envHashedKeys env) (envAuthConfig env) env

/-- `Config.Populate` (part_002:140-183): populate every environment of
every staged page; the first non-nil error collected from the error
channel is returned and later results are discarded. -/
def Populate (o : RepoOracles) (c : CacheState)
    (proxyConfig : List ProxyConfig) : Except String CacheState :=
  (allEnvs proxyConfig).foldl (populateStep o) (.ok c)

/-! ## parseAuthToken and FetchAndPopulate (src/unnamed/part_002) -/

/-- Go `strings.Split` on a single-character separator, over the
character list: `""` gives `[[]]`, and each separator starts a new
segment. -/
def splitCharsOn (sep : Char) : List Char → List (List Char)
  | [] => [[]]
  | c :: rest =>
    let r := splitCharsOn sep rest
    if c = sep then [] :: r
    else
      match r with
      | [] => [[c]]
      | g :: gs => (c :: g) :: gs

/-- Go `strings.Split(token, ".")`. -/
def goSplitDot (s : String) : List String :=
  (splitCharsOn '.' s.data).map String.mk

/-- A decoded JWT claim value: a JSON string or anything else. -/
inductive JsonVal where
  | str (s : String)
  | other
deriving DecidableEq, Repr

/-- Oracles for the external base64 segment decoder (`jwt.DecodeSegment`)
and JSON codec (`jsoniter.Unmarshal`) used by `parseAuthToken`. -/
structure TokenOracles where
  decodeSegment : String → Except String (List Nat)
  unmarshalClaims : List Nat → Except String (List (String × JsonVal))

/-- `parseAuthToken` (part_002:256-278).  The result is `none` when the Go
code panics: `strings.Split(token, ".")[1]` indexes position 1 of the
split, which exists only when the token contains a `'.'`. -/
def parseAuthToken (o : TokenOracles) (token : String) :
    Option (Except String String) :=
  if token = "" then some (.error "cannot parse empty token")
  else
    if h : 1 < (goSplitDot token).length then
      some (match o.decodeSegment ((goSplitDot token).get ⟨1, h⟩) with
        | .error e => .error e
        | .ok bs =>
          match o.unmarshalClaims bs with
          | .error e => .error e
          | .ok claims =>
            match claims.lookup "account" with
            | some (.str a) => .ok a
            | _ => .error "accountID not present in auth token")
    else none

/-- Oracles for the upstream calls made by `FetchAndPopulate`:
authentication, config pagination, inventory cleanup and SDK
notification publishing. -/
structure RemoteOracles where
  authResult : Except String (String × String)
  retrieveResult : Except String (List ProxyConfig)
  cleanupResult : Except String (List SSEMessage)
  publishErr : SSEMessage → Option String
  repo : RepoOracles
  tok : TokenOracles

/-- `notifySDKs` (part_002:128-137): publish each notification, stopping
at the first failure. -/
def notifySDKs (o : RemoteOracles) (msgs : List SSEMessage) :
    Option String :=
  msgs.findSome? o.publishErr

/-- `Config.FetchAndPopulate` (part_002:94-126): authenticate, page the
config, best-effort parse of the accountID (the error is discarded via
`c.accountID, _ = parseAuthToken(...)`, but a panic inside
`parseAuthToken` propagates, giving `none`), inventory cleanup, SDK
notifications, then `Populate`. -/
def FetchAndPopulate (o : RemoteOracles) (c : CacheState) :
    Option (Except String CacheState) :=
  match o.authResult with
  | .error e => some (.error e)
  | .ok (token, _cluster) =>
    match o.retrieveResult with
    | .error e => some (.error e)
    | .ok proxyConfig =>
      match parseAuthToken o.tok token with
      | none => none
      | some _accountIDOrErr =>
        match o.cleanupResult with
        | .error e => some (.error e)
        | .ok notifications =>
          match notifySDKs o notifications with
          | some e => some (.error e)
          | none => some (Populate o.repo c proxyConfig)

/-! ## cache.Refresher (src/cache/refresher.go)

`HandleMessage` dispatches on the message domain; the proxy-domain events
run the environment and API-key lifecycle handlers.  Errors split into the
two classification errors of refresher.go (`ErrUnexpectedMessageDomain`,
`ErrUnexpectedEventType`) and everything surfaced from repos or the
upstream client (`other`).  A result of `none` models a Go panic. -/

inductive RErr where
  | unexpectedMessageDomain (d : String)
  | unexpectedEventType (e : String)
  | other (s : String)
deriving DecidableEq, Repr

/-- Whether an error is one of refresher.go's domain/event classification
errors. -/
def RErr.isClassification : RErr → Bool
  | .unexpectedMessageDomain _ => true
  | .unexpectedEventType _ => true
  | .other _ => false

/-- Oracles for the Refresher's external calls: `PageProxyConfig` per
environment, the repo-write failures inside `Populate`, the removal calls
of `handleRemoveEnvironmentEvent`, and the auth-repo calls of the API-key
handlers. -/
structure RefresherOracles where
  pageProxyConfig : String → Except String (List ProxyConfig)
  repo : RepoOracles
  authRemoveAllErr : String → Option String
  flagRemoveErr : String → Option String
  segmentRemoveErr : String → Option String
  authAddErr : Option String
  authRemoveErr : Option String
  patchErr : Option String

/-- `handleAddEnvironmentEvent` (refresher.go:111-143): page the upstream
config for each environment and populate the repos from it; the first
fetch or populate error is returned. -/
def handleAddEnvironmentEvent (o : RefresherOracles) (c : CacheState)
    (environments : List String) : Except String CacheState :=
  environments.foldl
    (fun acc env =>
      match acc with
      | .error e => .error e
      | .ok c =>
        match o.pageProxyConfig env with
        | .error e => .error e
        | .ok proxyConfig => Populate o.repo c proxyConfig)
    (.ok c)

/-- `handleRemoveEnvironmentEvent` (refresher.go:146-163): for each
environment remove its auth keys and its flag and segment collections,
wrapping the first failure. -/
def handleRemoveEnvironmentEvent (o : RefresherOracles) (c : CacheState)
    (environments : List String) : Except String CacheState :=
  environments.foldl
    (fun acc env =>
      match acc with
      | .error e => .error e
      | .ok c =>
        match o.authRemoveAllErr env with
        | some e => .error ("failed to remove apikey configs from cache for environment " ++ env ++ " with error " ++ e)
        | none =>
        let c := removeAllKeysForEnvironment env c
        match o.flagRemoveErr env with
        | some e => .error ("failed to remove flag config from cache for environment " ++ env ++ " with error " ++ e)
        | none =>
        let c := flagRepoRemove env c
        match o.segmentRemoveErr env with
        | some e => .error ("failed to remove segment config from cache for environment " ++ env ++ " with error " ++ e)
        | none => .ok (segmentRepoRemove env c))
    (.ok c)

/-- `handleAddApiKeyEvent` (refresher.go:166-179): store an auth record
under the hashed key `NewAuthAPIKey(apiKey)`, then patch the
environment's key list. -/
def handleAddApiKeyEvent (o : RefresherOracles) (c : CacheState)
    (env apiKey : String) : Except String CacheState :=
  match o.authAddErr with
  | some e => .error e
  | none =>
  let c := authRepoAdd [(NewAuthAPIKey apiKey, env)] c
  match o.patchErr with
  | some e => .error e
  | none => .ok (patchAPIConfigForEnvironment env apiKey EventAPIKeyAdded c)

/-- `handleRemoveApiKeyEvent` (refresher.go:182-190): remove the record
under the literal key `"auth-key-" ++ apiKey` (the message's key verbatim,
not hashed), then patch the environment's key list. -/
def handleRemoveApiKeyEvent (o : RefresherOracles) (c : CacheState)
    (env apiKey : String) : Except String CacheState :=
  match o.authRemoveErr with
  | some e => .error e
  | none =>
  let c := authRepoRemove ["auth-key-" ++ apiKey] c
  match o.patchErr with
  | some e => .error e
  | none => .ok (patchAPIConfigForEnvironment env apiKey EventAPIKeyRemoved c)

/-- `handleProxyMessage` (refresher.go:79-108).  The API-key events read
`msg.Environments[0]` without a length check, so an empty `Environments`
list is a panic (`none`). -/
def handleProxyMessage (o : RefresherOracles) (c : CacheState)
    (msg : SSEMessage) : Option (Except RErr CacheState) :=
  if msg.Event = EventProxyKeyDeleted then some (.ok c)
  else if msg.Event = EventEnvironmentAdded then
    some ((handleAddEnvironmentEvent o c msg.Environments).mapError RErr.other)
  else if msg.Event = EventEnvironmentRemoved then
    some ((handleRemoveEnvironmentEvent o c msg.Environments).mapError RErr.other)
  else if msg.Event = EventAPIKeyAdded then
    match msg.Environments with
    | [] => none
    | e0 :: _ =>
      some ((handleAddApiKeyEvent o c e0 msg.APIKey).mapError RErr.other)
  else if msg.Event = EventAPIKeyRemoved then
    match msg.Environments with
    | [] => none
    | e0 :: _ =>
      some ((handleRemoveApiKeyEvent o c e0 msg.APIKey).mapError RErr.other)
  else some (.error (.unexpectedEventType msg.Event))

/-- `handleFeatureMessage` (refresher.go:56-66): the known events are
accepted (the bodies are future hooks); anything else is an
`UnexpectedEventType` error. -/
def handleFeatureMessage (msg : SSEMessage) : Except RErr Unit :=
  if msg.Event = EventDelete ∨ msg.Event = EventPatch ∨
      msg.Event = EventCreate then .ok ()
  else .error (.unexpectedEventType msg.Event)

/-- `handleSegmentMessage` (refresher.go:68-77): same shape as the
feature handler. -/
def handleSegmentMessage (msg : SSEMessage) : Except RErr Unit :=
  if msg.Event = EventDelete ∨ msg.Event = EventPatch ∨
      msg.Event = EventCreate then .ok ()
  else .error (.unexpectedEventType msg.Event)

/-- `Refresher.HandleMessage` (refresher.go:42-54): dispatch on the
message domain; an unknown domain is an `UnexpectedMessageDomain` error. -/
def HandleMessage (o : RefresherOracles) (c : CacheState)
    (msg : SSEMessage) : Option (Except RErr CacheState) :=
  if msg.Domain = MsgDomainFeature then
    some ((handleFeatureMessage msg).map (fun _ => c))
  else if msg.Domain = MsgDomainSegment then
    some ((handleSegmentMessage msg).map (fun _ => c))
  else if msg.Domain = MsgDomainProxy then handleProxyMessage o c msg
  else some (.error (.unexpectedMessageDomain msg.Domain))

/-- Oracles on which every external call succeeds. -/
def goodRefOracles : RefresherOracles :=
  ⟨fun _ => .ok [], ⟨fun _ => none, fun _ => none, fun _ => none,
    fun _ => none⟩, fun _ => none, fun _ => none, fun _ => none,
   none, none, none⟩

/-! ## Memoize cache (src/cache/memoize_cache.go)

The unmarshal decorator keyed by the MD5 of the raw bytes.  MD5 itself is
the external `crypto/md5`; it enters as the parameter `md5`.  The decoded
object type is a parameter `α`; `decode` is the outcome `jsoniter.Unmarshal`
would produce on the given bytes.  `decodes` is a ghost counter of decode
operations actually performed. -/

structure MemoizeState (α : Type) where
  cache : List (String × α)
  hit : Nat
  miss : Nat
  writeMarshal : Nat
  hitWithUnmarshal : Nat
  decodes : Nat

/-- The zero-counter empty memoize state. -/
def memoizeInit (α : Type) : MemoizeState α := ⟨[], 0, 0, 0, 0, 0⟩

/-- One call of the function built by `makeUnmarshalFunc`
(memoize_cache.go:77-117).  Returns the new state and the value delivered
to the caller's destination (`none` when the decode failed). -/
def memoizeRead {α : Type} (md5 : List Nat → String) (s : MemoizeState α)
    (bytes : List Nat) (destIsPointer : Bool) (decode : Option α) :
    MemoizeState α × Option α :=
  match s.cache.lookup (md5 bytes) with
  | some v =>
    if !destIsPointer then
      (⟨s.cache, s.hit, s.miss, s.writeMarshal, s.hitWithUnmarshal + 1,
        s.decodes + 1⟩, decode)
    else
      (⟨s.cache, s.hit + 1, s.miss, s.writeMarshal, s.hitWithUnmarshal,
        s.decodes⟩, some v)
  | none =>
    match decode with
    | none =>
      (⟨s.cache, s.hit, s.miss + 1, s.writeMarshal, s.hitWithUnmarshal,
        s.decodes + 1⟩, none)
    | some v =>
      (⟨setAssoc (md5 bytes) v s.cache, s.hit, s.miss + 1, s.writeMarshal,
        s.hitWithUnmarshal, s.decodes + 1⟩, some v)

/-- One call of the function built by `makeMarshalFunc`
(memoize_cache.go:60-75): on a successful marshal to `bytes`, store
`md5(bytes) → value` and count the marshal; a marshal error touches
nothing. -/
def memoizeWrite {α : Type} (md5 : List Nat → String) (s : MemoizeState α)
    (value : α) (marshal : Option (List Nat)) : MemoizeState α :=
  match marshal with
  | none => s
  | some bs =>
    ⟨setAssoc (md5 bs) value s.cache, s.hit, s.miss,
     s.writeMarshal + 1, s.hitWithUnmarshal, s.decodes⟩

/-- An operation against the memoize cache. -/
inductive MemOp (α : Type) where
  | read (bytes : List Nat) (destIsPointer : Bool) (decode : Option α)
  | write (value : α) (marshal : Option (List Nat))

/-- Apply one operation. -/
def memoizeStep {α : Type} (md5 : List Nat → String) (s : MemoizeState α) :
    MemOp α → MemoizeState α
  | .read bytes p d => (memoizeRead md5 s bytes p d).1
  | .write v m => memoizeWrite md5 s v m

/-- Run a sequence of operations from the empty state. -/
def memoizeRun {α : Type} (md5 : List Nat → String) (ops : List (MemOp α)) :
    MemoizeState α :=
  ops.foldl (memoizeStep md5) (memoizeInit α)

/-! ## Forwarder (stream fabric, spec §4.5)

Modelled from the spec: `stream/forwarder.go` is not under `src/`; only
its tests are (src/stream/forwarder_test.go).  Per §4.5 the Forwarder
wraps a transport and a delegate handler: for a message whose domain is
`flag` or `target-segment` it publishes on the transport and invokes the
delegate, and neither path can skip the other.  The error policy is
pinned by the tests: the case "domain 'flag' but the stream fails to
publish" expects `HandleMessage` to return nil, so a publish failure is
logged and swallowed, and the returned error is the delegate's. -/

inductive FwdAction where
  | publish
  | delegate
deriving DecidableEq, Repr

/-- `Forwarder.HandleMessage`: the attempted actions in order, and the
returned error. -/
def ForwarderHandleMessage (publishErr delegateErr : Option String)
    (msg : SSEMessage) : List FwdAction × Option String :=
  let pubActs := if msg.Domain = MsgDomainFeature ∨
      msg.Domain = MsgDomainSegment then [FwdAction.publish] else []
  let _ := publishErr
  (pubActs ++ [FwdAction.delegate], delegateErr)

/-! ## On-disconnect handler (src/stream/on_connect_disconnect_handlers.go)

`SaasStreamOnDisconnect` as its sequence of attempted calls, each paired
with the outcome its oracle yields.  Every failure is only logged (the
publish failure additionally ends the handler, after the publish), so the
action sequence does not depend on the outcomes. -/

/-- The shared stream-health state written on disconnect (spec §3). -/
def StreamStateDisconnected : String := "DISCONNECTED"

/-- The control event published on disconnect
(on_connect_disconnect_handlers.go:63). -/
def streamActionDisconnected : SSEMessage :=
  ⟨StreamStateDisconnected, "stream_action", "", [], ""⟩

inductive DisconnectAction where
  | setUnhealthy
  | poll
  | closeStream (id : String)
  | publish (msg : SSEMessage)
deriving DecidableEq, Repr

structure DisconnectOracles where
  setUnhealthyErr : Option String
  pollErr : Option String
  closeErr : String → Option String
  publishErr : Option String

/-- `SaasStreamOnDisconnect` (on_connect_disconnect_handlers.go:27-70):
set health unhealthy, poll for missed config, close every connected
Proxy→SDK stream, then publish the disconnect control event. -/
def SaasStreamOnDisconnect (o : DisconnectOracles)
    (streams : List String) : List (DisconnectAction × Option String) :=
  (DisconnectAction.setUnhealthy, o.setUnhealthyErr) ::
  (DisconnectAction.poll, o.pollErr) ::
  streams.map (fun s => (DisconnectAction.closeStream s, o.closeErr s)) ++
  [(DisconnectAction.publish streamActionDisconnected, o.publishErr)]

/-! ## Metrics queue (clients/metrics_service, spec §4.9)

Modelled from the spec: the `Queue` implementation is not under `src/`;
only its tests are (src/clients/metrics_service/queue_test.go).  Per §4.9
a `StoreMetrics` call splits the request into an evaluation part and a
target part, each aggregated into its own size-capped sub-buffer.  The
cap behaviour is pinned by the test "Given I call StoreMetrics and we've
already exceeded the max queue size": after the call the sub-buffer holds
exactly the incoming entry's part, so an over-cap store flushes the held
contents onto the output channel (buffered in the test "so we don't have
to run the test concurrently"), resets the size, and then stores the
incoming entry.  Nil data is never stored (test "Given I call
StoreMetrics with nil Target data"). -/

structure MetricsReq where
  Size : Nat
  EnvironmentID : String
  MetricsData : Option (List String)
  TargetData : Option (List String)
deriving DecidableEq, Repr

/-- The evaluation-data half of a request. -/
def evalPart (m : MetricsReq) : MetricsReq :=
  ⟨m.Size, m.EnvironmentID, m.MetricsData, none⟩

/-- The target-data half of a request. -/
def targetPart (m : MetricsReq) : MetricsReq :=
  ⟨m.Size, m.EnvironmentID, none, m.TargetData⟩

/-- Append of optional payload lists. -/
def optAppend : Option (List String) → Option (List String) →
    Option (List String)
  | none, y => y
  | some a, none => some a
  | some a, some b => some (a ++ b)

/-- One size-tracked sub-buffer (Go `safeTargetsMap`). -/
structure SubBuffer where
  entries : List (String × MetricsReq)
  currentSize : Nat
deriving DecidableEq, Repr

/-- The empty sub-buffer. -/
def emptyBuffer : SubBuffer := ⟨[], 0⟩

/-- Aggregate one request part into a sub-buffer, merging with the
environment's existing entry. -/
def addToBuffer (b : SubBuffer) (m : MetricsReq) : SubBuffer :=
  match b.entries.lookup m.EnvironmentID with
  | none => ⟨setAssoc m.EnvironmentID m b.entries, b.currentSize + m.Size⟩
  | some old =>
    ⟨setAssoc m.EnvironmentID
      ⟨old.Size + m.Size, m.EnvironmentID,
       optAppend old.MetricsData m.MetricsData,
       optAppend old.TargetData m.TargetData⟩ b.entries,
     b.currentSize + m.Size⟩

/-- The queue: the two sub-buffers and the flush output channel. -/
structure QueueState where
  metricsData : SubBuffer
  targetData : SubBuffer
  out : List (List (String × MetricsReq))
deriving DecidableEq, Repr

/-- `Queue.StoreMetrics`: each sub-buffer, independently, skips nil data;
when it already exceeds its cap its contents are flushed to the output
channel and its size reset before the incoming part is stored. -/
def StoreMetrics (maxEval maxTarget : Nat) (q : QueueState)
    (m : MetricsReq) : QueueState :=
  let q1 :=
    match m.MetricsData with
    | none => q
    | some _ =>
      if q.metricsData.currentSize > maxEval then
        ⟨addToBuffer emptyBuffer (evalPart m), q.targetData,
         q.out ++ [q.metricsData.entries]⟩
      else ⟨addToBuffer q.metricsData (evalPart m), q.targetData, q.out⟩
  match m.TargetData with
  | none => q1
  | some _ =>
    if q1.targetData.currentSize > maxTarget then
      ⟨q1.metricsData, addToBuffer emptyBuffer (targetPart m),
       q1.out ++ [q1.targetData.entries]⟩
    else ⟨q1.metricsData, addToBuffer q1.targetData (targetPart m), q1.out⟩

/-! ## Derived notions and concrete instances used by the theorems -/

/-- Repo oracles on which every cache write succeeds. -/
def goodRepoOracles : RepoOracles :=
  ⟨fun _ => none, fun _ => none, fun _ => none, fun _ => none⟩

/-- The error component of an `Except` result. -/
def errOf {α : Type} : Except String α → Option String
  | .ok _ => none
  | .error e => some e

/-- The error one `Populate` goroutine reports for an environment.  It
depends only on the oracles and the environment, never on the shared
cache, so it is computed against the empty cache. -/
def populateErr? (o : RepoOracles) (env : Environments) : Option String :=
  errOf (populate o emptyCache (envHashedKeys env) (envAuthConfig env) env)

/-- Presence ordering between caches: every key present on the left is
still present on the right, field by field. -/
def presenceLE (c c' : CacheState) : Prop :=
  (∀ k, (c.authRecords.lookup k).isSome = true →
    (c'.authRecords.lookup k).isSome = true) ∧
  (∀ k, (c.envApiKeys.lookup k).isSome = true →
    (c'.envApiKeys.lookup k).isSome = true) ∧
  (∀ k, (c.flags.lookup k).isSome = true →
    (c'.flags.lookup k).isSome = true) ∧
  (∀ k, (c.segments.lookup k).isSome = true →
    (c'.segments.lookup k).isSome = true)

/-- An environment's configuration is present in the cache: one auth
record per API key, and — when the respective source list is non-empty —
its key list, flag collection and segment collection. -/
def envPopulated (env : Environments) (c : CacheState) : Prop :=
  (∀ k ∈ env.APIKeys,
    (c.authRecords.lookup (NewAuthAPIKey k)).isSome = true) ∧
  (env.APIKeys ≠ [] → (c.envApiKeys.lookup env.ID).isSome = true) ∧
  (env.FeatureConfigs ≠ [] → (c.flags.lookup env.ID).isSome = true) ∧
  (env.Segments ≠ [] → (c.segments.lookup env.ID).isSome = true)

/-- `RemoteOracles` with the token oracles replaced. -/
def withTok (o : RemoteOracles) (t : TokenOracles) : RemoteOracles :=
  ⟨o.authResult, o.retrieveResult, o.cleanupResult, o.publishErr, o.repo, t⟩

/-- Token oracles on which every external decode fails. -/
def nilTokenOracles : TokenOracles :=
  ⟨fun _ => .error "no decode", fun _ => .error "no claims"⟩

/-- Token oracles on which decoding succeeds with an `account` claim. -/
def okTokenOracles : TokenOracles :=
  ⟨fun _ => .ok [], fun _ => .ok [("account", .str "acc")]⟩

/-- Remote oracles whose upstream auth yields the two-segment token
`"a.b"` and whose other calls succeed. -/
def c9Remote : RemoteOracles :=
  ⟨.ok ("a.b", "1"), .ok [], .ok [], fun _ => none, goodRepoOracles,
   nilTokenOracles⟩

/-- Remote oracles whose upstream auth yields the separator-free token
`"abc"`. -/
def c9AbcRemote : RemoteOracles :=
  ⟨.ok ("abc", "1"), .ok [], .ok [], fun _ => none, goodRepoOracles,
   nilTokenOracles⟩

/-- Handle an `api-key-added` then an `api-key-removed` message for the
same environment and raw API key, starting from the empty cache, and
look up the auth record under the hashed key; `some` only if both
messages were handled without panic or error. -/
def finalAuthLookup (o : RefresherOracles) (env k : String) :
    Option (Option String) :=
  match HandleMessage o emptyCache
      ⟨MsgDomainProxy, EventAPIKeyAdded, "", [env], k⟩ with
  | some (.ok c₁) =>
    match HandleMessage o c₁
        ⟨MsgDomainProxy, EventAPIKeyRemoved, "", [env], k⟩ with
    | some (.ok c₂) => some (c₂.authRecords.lookup (NewAuthAPIKey k))
    | _ => none
  | _ => none

/-- An environment whose key, flag and segment lists are all empty. -/
def c3Env : Environments := ⟨"e1", [], [], []⟩

/-- A one-environment staged config with non-empty lists. -/
def c3pc : List ProxyConfig := [⟨[⟨"e2", ["k"], ["f"], ["s"]⟩]⟩]

/-- The state of a successful `Except`, with a fallback. -/
def okState (r : Except String CacheState) (dflt : CacheState) :
    CacheState :=
  match r with
  | .ok c => c
  | .error _ => dflt

/-- The cache produced by populating `c3pc` from the empty cache. -/
def c3res : CacheState :=
  okState (Populate goodRepoOracles emptyCache c3pc) emptyCache

/-- The action trace of the on-disconnect handler. -/
def disconnectTrace (o : DisconnectOracles) (streams : List String) :
    List DisconnectAction :=
  (SaasStreamOnDisconnect o streams).map Prod.fst

/-- A metrics request carrying both evaluation and target data. -/
def mr123full : MetricsReq := ⟨7, "123", some ["md"], some ["td"]⟩

/-- A queue whose two sub-buffers already exceed a cap of 10. -/
def c7pre : QueueState :=
  ⟨⟨[("123", mr123full)], 20⟩, ⟨[("123", mr123full)], 20⟩, []⟩

/-- Disconnect oracles on which every call succeeds. -/
def c5Oracles : DisconnectOracles := ⟨none, none, fun _ => none, none⟩

/-- Refresher oracles whose upstream page fetch fails. -/
def badRefOracles : RefresherOracles :=
  ⟨fun _ => .error "page boom", goodRepoOracles, fun _ => none,
   fun _ => none, fun _ => none, none, none, none⟩

/-- Repo oracles on which the flag write fails for environment "e9". -/
def c6BadOracles : RepoOracles :=
  ⟨fun _ => none, fun _ => none,
   fun id => if id = "e9" then some "flag boom" else none, fun _ => none⟩

/-- A staged config whose only environment has flag configs but no keys. -/
def c6pc : List ProxyConfig := [⟨[⟨"e9", [], ["f"], []⟩]⟩]

/-! ## Theorems -/

/-- The normal form of the on-disconnect action trace: health first, then
the poll, then one close per connected stream, then the single control
publish — independent of any call's failure. -/
theorem disconnectTrace_eq (o : DisconnectOracles) (streams : List String) :
    disconnectTrace o streams =
      DisconnectAction.setUnhealthy :: DisconnectAction.poll ::
        (streams.map DisconnectAction.closeStream ++
         [DisconnectAction.publish streamActionDisconnected]) := by
  unfold disconnectTrace SaasStreamOnDisconnect
  simp

/-- C5 (confirmed): on every invocation of the on-disconnect handler, the
health transition to UNHEALTHY is the first action, every connected
stream has a close attempted, and exactly one `stream_action/DISCONNECTED`
control event is published, as the last action — after the health
transition and all the closes. -/
theorem C5_disconnect_cascade (o : DisconnectOracles)
    (streams : List String) :
    (disconnectTrace o streams).head? = some DisconnectAction.setUnhealthy
    ∧ (disconnectTrace o streams).getLast? =
        some (DisconnectAction.publish streamActionDisconnected)
    ∧ (disconnectTrace o streams).count
        (DisconnectAction.publish streamActionDisconnected) = 1
    ∧ (∀ s ∈ streams,
        DisconnectAction.closeStream s ∈ disconnectTrace o streams)
    ∧ (∀ m, DisconnectAction.publish m ∈ disconnectTrace o streams →
        m = streamActionDisconnected) := by
  rw [disconnectTrace_eq]
  refine ⟨rfl, ?_, ?_, ?_, ?_⟩
  · rw [show DisconnectAction.setUnhealthy :: DisconnectAction.poll ::
      (streams.map DisconnectAction.closeStream ++
       [DisconnectAction.publish streamActionDisconnected]) =
      (DisconnectAction.setUnhealthy :: DisconnectAction.poll ::
       streams.map DisconnectAction.closeStream) ++
      [DisconnectAction.publish streamActionDisconnected] by simp]
    exact List.getLast?_concat _
  · simp only [List.count_cons, List.count_append]
    have h0 : (streams.map DisconnectAction.closeStream).count
        (DisconnectAction.publish streamActionDisconnected) = 0 := by
      refine List.count_eq_zero.2 ?_
      intro hmem
      rcases List.mem_map.1 hmem with ⟨s, _, hs⟩
      exact DisconnectAction.noConfusion hs
    simp [h0]
  · intro s hs
    exact List.mem_cons_of_mem _ (List.mem_cons_of_mem _
      (List.mem_append_left _ (List.mem_map_of_mem _ hs)))
  · intro m hm
    rw [List.mem_cons, List.mem_cons, List.mem_append] at hm
    rcases hm with hm | hm | hm | hm
    · exact DisconnectAction.noConfusion hm
    · exact DisconnectAction.noConfusion hm
    · rcases List.mem_map.1 hm with ⟨s, _, hs⟩
      exact DisconnectAction.noConfusion hs
    · have hm' := List.mem_singleton.1 hm
      injection hm' with h2

/-- C5 witness: the cascade properties at one connected stream. -/
theorem C5_disconnect_cascade_witness :
    (disconnectTrace c5Oracles ["s1"]).head? =
      some DisconnectAction.setUnhealthy
    ∧ DisconnectAction.closeStream "s1" ∈ disconnectTrace c5Oracles ["s1"]
    ∧ (disconnectTrace c5Oracles ["s1"]).count
        (DisconnectAction.publish streamActionDisconnected) = 1 :=
  ⟨(C5_disconnect_cascade c5Oracles ["s1"]).1,
   (C5_disconnect_cascade c5Oracles ["s1"]).2.2.2.1 "s1" (by decide),
   (C5_disconnect_cascade c5Oracles ["s1"]).2.2.1⟩

/-- C2 counterexample: for a `flag`-domain message whose publish fails
with "an error" while the delegate succeeds, `HandleMessage` attempts
both the publish and the delegate but returns no error — refuting the
claim that an error from either path is returned to the caller.  This
error policy is pinned by src/stream/forwarder_test.go, whose case
"Given I have an SSEMessage with the domain 'flag' but the stream fails
to publish" has `shouldErr: false`. -/
theorem C2_counterexample :
    ForwarderHandleMessage (some "an error") none
      ⟨MsgDomainFeature, EventPatch, "", [], ""⟩ =
      ([FwdAction.publish, FwdAction.delegate], none) := by decide

/-- C2 (corrected): for every message with domain `flag` or
`target-segment`, `HandleMessage` attempts exactly one publish and one
delegate invocation, in that order, regardless of either path's failure;
for every other domain no publish occurs but the delegate is still
invoked; the delegate's error is returned to the caller while a publish
failure is logged and swallowed. -/
theorem C2_forwarder_paths (pubErr delErr : Option String)
    (msg : SSEMessage) :
    ((msg.Domain = MsgDomainFeature ∨ msg.Domain = MsgDomainSegment) →
      ForwarderHandleMessage pubErr delErr msg =
        ([FwdAction.publish, FwdAction.delegate], delErr))
    ∧ (msg.Domain ≠ MsgDomainFeature → msg.Domain ≠ MsgDomainSegment →
      ForwarderHandleMessage pubErr delErr msg =
        ([FwdAction.delegate], delErr)) := by
  constructor
  · intro h
    unfold ForwarderHandleMessage
    rw [if_pos h]
    rfl
  · intro h1 h2
    unfold ForwarderHandleMessage
    rw [if_neg (fun h => h.elim h1 h2)]
    rfl

/-- C2 witness: both paths attempted and the delegate's error returned
for a `target-segment` message whose publish also failed. -/
theorem C2_forwarder_paths_witness :
    ForwarderHandleMessage (some "pub boom") (some "delegate boom")
      ⟨MsgDomainSegment, EventCreate, "", [], ""⟩ =
      ([FwdAction.publish, FwdAction.delegate], some "delegate boom") :=
  (C2_forwarder_paths (some "pub boom") (some "delegate boom")
    ⟨MsgDomainSegment, EventCreate, "", [], ""⟩).1 (Or.inr rfl)

/-- C10 counterexample: an `api-key-added` proxy message with an empty
`Environments` list makes `HandleMessage` read `msg.Environments[0]` out
of range — a panic, modelled as `none` — rather than evaluate to a
defined result. -/
theorem C10_counterexample :
    HandleMessage goodRefOracles emptyCache
      ⟨MsgDomainProxy, EventAPIKeyAdded, "", [], "k"⟩ = none := rfl

/-- C10 (corrected): for proxy-domain API-key messages, `HandleMessage`
evaluates to a defined result whenever the `Environments` list is
non-empty; on the empty list the unchecked `msg.Environments[0]` access
panics. -/
theorem C10_apikey_defined (o : RefresherOracles) (c : CacheState)
    (msg : SSEMessage) (hd : msg.Domain = MsgDomainProxy)
    (he : msg.Event = EventAPIKeyAdded ∨ msg.Event = EventAPIKeyRemoved)
    (hne : msg.Environments ≠ []) :
    (HandleMessage o c msg).isSome = true := by
  obtain ⟨d, ev, i, envs, key⟩ := msg
  simp only at hd he hne
  subst hd
  cases envs with
  | nil => exact absurd rfl hne
  | cons e es =>
    rcases he with he | he <;> subst he <;>
      simp [HandleMessage, handleProxyMessage, MsgDomainProxy,
        MsgDomainFeature, MsgDomainSegment, EventAPIKeyAdded,
        EventAPIKeyRemoved, EventProxyKeyDeleted, EventEnvironmentAdded,
        EventEnvironmentRemoved]

/-- Helper: an error passed through `RErr.other` is never one of the
classification errors. -/
theorem mapError_other_not_classification {x : Except String CacheState}
    {e : RErr} (h : x.mapError RErr.other = .error e) :
    e.isClassification = false := by
  cases x with
  | ok v => simp [Except.mapError] at h
  | error s =>
    simp [Except.mapError] at h
    subst h
    rfl

/-- C8 (confirmed): `HandleMessage` returns `UnexpectedMessageDomain` for
any domain other than flag, target-segment or proxy; it returns
`UnexpectedEventType` for a flag or target-segment message whose event is
not create/patch/delete, and for a proxy message whose event is not one
of the five proxy lifecycle events; for every valid domain/event
combination any returned error comes from the repos or the upstream
client, never from the domain/event classification. -/
theorem C8_dispatch_errors (o : RefresherOracles) (c : CacheState)
    (msg : SSEMessage) :
    (msg.Domain ≠ MsgDomainFeature → msg.Domain ≠ MsgDomainSegment →
      msg.Domain ≠ MsgDomainProxy →
      HandleMessage o c msg =
        some (.error (.unexpectedMessageDomain msg.Domain)))
    ∧ ((msg.Domain = MsgDomainFeature ∨ msg.Domain = MsgDomainSegment) →
      msg.Event ≠ EventCreate → msg.Event ≠ EventPatch →
      msg.Event ≠ EventDelete →
      HandleMessage o c msg =
        some (.error (.unexpectedEventType msg.Event)))
    ∧ (msg.Domain = MsgDomainProxy →
      msg.Event ≠ EventProxyKeyDeleted →
      msg.Event ≠ EventEnvironmentAdded →
      msg.Event ≠ EventEnvironmentRemoved →
      msg.Event ≠ EventAPIKeyAdded → msg.Event ≠ EventAPIKeyRemoved →
      HandleMessage o c msg =
        some (.error (.unexpectedEventType msg.Event)))
    ∧ (∀ e : RErr,
      ((msg.Domain = MsgDomainFeature ∨ msg.Domain = MsgDomainSegment) ∧
        (msg.Event = EventCreate ∨ msg.Event = EventPatch ∨
          msg.Event = EventDelete) ∨
        msg.Domain = MsgDomainProxy ∧
        (msg.Event = EventProxyKeyDeleted ∨
          msg.Event = EventEnvironmentAdded ∨
          msg.Event = EventEnvironmentRemoved ∨
          msg.Event = EventAPIKeyAdded ∨
          msg.Event = EventAPIKeyRemoved)) →
      HandleMessage o c msg = some (.error e) →
      e.isClassification = false) := by
  obtain ⟨d, ev, i, envs, key⟩ := msg
  refine ⟨?_, ?_, ?_, ?_⟩
  · intro h1 h2 h3
    simp only at h1 h2 h3
    simp [HandleMessage, h1, h2, h3]
  · intro h hc hp hd
    simp only at h hc hp hd
    rcases h with h | h <;> subst h <;>
      simp [HandleMessage, handleFeatureMessage, handleSegmentMessage,
        MsgDomainFeature, MsgDomainSegment, hc, hp, hd, Except.map]
  · intro h h1 h2 h3 h4 h5
    simp only at h h1 h2 h3 h4 h5
    subst h
    simp [HandleMessage, handleProxyMessage, MsgDomainProxy,
      MsgDomainFeature, MsgDomainSegment, h1, h2, h3, h4, h5]
  · intro e hvalid heq
    simp only at hvalid heq
    rcases hvalid with ⟨h, hev⟩ | ⟨h, hev⟩
    · rcases h with h | h <;> subst h <;>
        rcases hev with hev | hev | hev <;> subst hev <;>
        simp [HandleMessage, handleFeatureMessage, handleSegmentMessage,
          MsgDomainFeature, MsgDomainSegment, EventCreate, EventPatch,
          EventDelete, Except.map] at heq
    · subst h
      rcases hev with hev | hev | hev | hev | hev <;> subst hev
      · simp [HandleMessage, handleProxyMessage, MsgDomainProxy,
          MsgDomainFeature, MsgDomainSegment, EventProxyKeyDeleted] at heq
      · simp [HandleMessage, handleProxyMessage, MsgDomainProxy,
          MsgDomainFeature, MsgDomainSegment, EventEnvironmentAdded,
          EventProxyKeyDeleted] at heq
        exact mapError_other_not_classification heq
      · simp [HandleMessage, handleProxyMessage, MsgDomainProxy,
          MsgDomainFeature, MsgDomainSegment, EventEnvironmentRemoved,
          EventProxyKeyDeleted, EventEnvironmentAdded] at heq
        exact mapError_other_not_classification heq
      · cases envs with
        | nil =>
          simp [HandleMessage, handleProxyMessage, MsgDomainProxy,
            MsgDomainFeature, MsgDomainSegment, EventAPIKeyAdded,
            EventProxyKeyDeleted, EventEnvironmentAdded,
            EventEnvironmentRemoved] at heq
        | cons e0 es =>
          simp [HandleMessage, handleProxyMessage, MsgDomainProxy,
            MsgDomainFeature, MsgDomainSegment, EventAPIKeyAdded,
            EventProxyKeyDeleted, EventEnvironmentAdded,
            EventEnvironmentRemoved] at heq
          exact mapError_other_not_classification heq
      · cases envs with
        | nil =>
          simp [HandleMessage, handleProxyMessage, MsgDomainProxy,
            MsgDomainFeature, MsgDomainSegment, EventAPIKeyRemoved,
            EventProxyKeyDeleted, EventEnvironmentAdded,
            EventEnvironmentRemoved, EventAPIKeyAdded] at heq
        | cons e0 es =>
          simp [HandleMessage, handleProxyMessage, MsgDomainProxy,
            MsgDomainFeature, MsgDomainSegment, EventAPIKeyRemoved,
            EventProxyKeyDeleted, EventEnvironmentAdded,
            EventEnvironmentRemoved, EventAPIKeyAdded] at heq
          exact mapError_other_not_classification heq

/-- C8 witness: the three error classes and a classification-free valid
case, each at a concrete message. -/
theorem C8_dispatch_errors_witness :
    HandleMessage goodRefOracles emptyCache ⟨"foo", "bar", "", [], ""⟩ =
      some (.error (.unexpectedMessageDomain "foo"))
    ∧ HandleMessage goodRefOracles emptyCache
        ⟨MsgDomainFeature, "boom", "", [], ""⟩ =
      some (.error (.unexpectedEventType "boom"))
    ∧ HandleMessage goodRefOracles emptyCache
        ⟨MsgDomainProxy, "boom", "", [], ""⟩ =
      some (.error (.unexpectedEventType "boom"))
    ∧ (RErr.other "page boom").isClassification = false :=
  ⟨(C8_dispatch_errors goodRefOracles emptyCache
      ⟨"foo", "bar", "", [], ""⟩).1 (by decide) (by decide) (by decide),
   (C8_dispatch_errors goodRefOracles emptyCache
      ⟨MsgDomainFeature, "boom", "", [], ""⟩).2.1 (Or.inl rfl)
      (by decide) (by decide) (by decide),
   (C8_dispatch_errors goodRefOracles emptyCache
      ⟨MsgDomainProxy, "boom", "", [], ""⟩).2.2.1 rfl (by decide)
      (by decide) (by decide) (by decide) (by decide),
   (C8_dispatch_errors badRefOracles emptyCache
      ⟨MsgDomainProxy, EventEnvironmentAdded, "", ["e"], ""⟩).2.2.2
      (RErr.other "page boom")
      (Or.inr ⟨rfl, Or.inr (Or.inl rfl)⟩) rfl⟩

/-- Helper: looking up the key just set finds the value just set. -/
theorem lookup_setAssoc_self {α : Type} (k : String) (v : α)
    (m : List (String × α)) : (setAssoc k v m).lookup k = some v := by
  simp [setAssoc, List.lookup]

/-- Helper: one memoize operation preserves the decode-count identity. -/
theorem memoizeStep_inv {α : Type} (md5 : List Nat → String)
    (s : MemoizeState α) (op : MemOp α)
    (h : s.decodes = s.miss + s.hitWithUnmarshal) :
    (memoizeStep md5 s op).decodes =
      (memoizeStep md5 s op).miss +
      (memoizeStep md5 s op).hitWithUnmarshal := by
  cases op with
  | read bytes p d =>
    cases hl : s.cache.lookup (md5 bytes) with
    | some v =>
      cases p
      all_goals simp [memoizeStep, memoizeRead, hl, h]
      all_goals omega
    | none =>
      cases d
      all_goals simp [memoizeStep, memoizeRead, hl, h]
      all_goals omega
  | write v m => cases m <;> simp [memoizeStep, memoizeWrite, h]

/-- Helper: the decode-count identity holds along any run. -/
theorem memoizeFold_inv {α : Type} (md5 : List Nat → String)
    (ops : List (MemOp α)) :
    ∀ s : MemoizeState α, s.decodes = s.miss + s.hitWithUnmarshal →
      (ops.foldl (memoizeStep md5) s).decodes =
        (ops.foldl (memoizeStep md5) s).miss +
        (ops.foldl (memoizeStep md5) s).hitWithUnmarshal := by
  induction ops with
  | nil => intro s h; exact h
  | cons op rest ih => intro s h; exact ih _ (memoizeStep_inv md5 s op h)

/-- C4 (confirmed): a memoize-cache read whose bytes hash to a key held
in the in-process map, with an addressable destination, increments only
the hit counter, performs no decode, and delivers the cached object; a
read whose hash is absent increments the miss counter, performs one
decode, and on decode success stores the hash-to-object entry and
delivers the decoded object; over any run, the number of decodes
performed equals miss plus hit-with-unmarshal (so a hit performs no
decode). -/
theorem C4_memoize_read {α : Type} (md5 : List Nat → String)
    (s : MemoizeState α) (bytes : List Nat) (p : Bool) (d : Option α) :
    (∀ v, s.cache.lookup (md5 bytes) = some v →
      memoizeRead md5 s bytes true d =
        (⟨s.cache, s.hit + 1, s.miss, s.writeMarshal, s.hitWithUnmarshal,
          s.decodes⟩, some v))
    ∧ (s.cache.lookup (md5 bytes) = none →
      (memoizeRead md5 s bytes p d).1.miss = s.miss + 1 ∧
      (memoizeRead md5 s bytes p d).1.decodes = s.decodes + 1 ∧
      ∀ v, d = some v →
        (memoizeRead md5 s bytes p d).1.cache.lookup (md5 bytes) =
          some v ∧
        (memoizeRead md5 s bytes p d).2 = some v)
    ∧ ∀ ops : List (MemOp α),
      (memoizeRun md5 ops).decodes =
        (memoizeRun md5 ops).miss +
        (memoizeRun md5 ops).hitWithUnmarshal := by
  refine ⟨?_, ?_, ?_⟩
  · intro v hv
    unfold memoizeRead
    rw [hv]
    rfl
  · intro h
    unfold memoizeRead
    rw [h]
    cases d with
    | none => exact ⟨rfl, rfl, fun v hv => Option.noConfusion hv⟩
    | some v =>
      refine ⟨rfl, rfl, fun w hw => ?_⟩
      cases hw
      exact ⟨lookup_setAssoc_self _ _ _, rfl⟩
  · intro ops
    exact memoizeFold_inv md5 ops (memoizeInit α) rfl

/-- C4 witness: a hit, a populating miss, and the run identity at
concrete operations. -/
theorem C4_memoize_read_witness :
    memoizeRead (fun _ => "h")
      (⟨[("h", 42)], 0, 0, 0, 0, 0⟩ : MemoizeState Nat) [1] true none =
      (⟨[("h", 42)], 1, 0, 0, 0, 0⟩, some 42)
    ∧ (memoizeRead (fun _ => "h") (memoizeInit Nat) [1] true
        (some 5)).1.miss = 1
    ∧ (memoizeRun (fun _ => "h")
        ([.read [1] true (some 5), .read [1] false (some 5),
          .write 7 (some [2])] : List (MemOp Nat))).decodes =
      (memoizeRun (fun _ => "h")
        ([.read [1] true (some 5), .read [1] false (some 5),
          .write 7 (some [2])] : List (MemOp Nat))).miss +
      (memoizeRun (fun _ => "h")
        ([.read [1] true (some 5), .read [1] false (some 5),
          .write 7 (some [2])] : List (MemOp Nat))).hitWithUnmarshal :=
  ⟨(C4_memoize_read (fun _ => "h") ⟨[("h", 42)], 0, 0, 0, 0, 0⟩ [1] true
      none).1 42 rfl,
   (by
    have h := (C4_memoize_read (fun _ => "h") (memoizeInit Nat) [1] true
      (some 5)).2.1 rfl
    exact h.1),
   (C4_memoize_read (fun _ => "h") (memoizeInit Nat) [1] true
      (some 5)).2.2
     [.read [1] true (some 5), .read [1] false (some 5),
      .write 7 (some [2])]⟩

/-- Helper: a `Populate` goroutine's error does not depend on the shared
cache it starts from. -/
theorem errOf_populate_indep (o : RepoOracles) (ks : List String)
    (cfg : List (String × String)) (env : Environments)
    (c c' : CacheState) :
    errOf (populate o c ks cfg env) = errOf (populate o c' ks cfg env) := by
  unfold populate
  cases hx1 : (if ks.length > 0 then o.authAddErr env.ID else none) with
  | some e => rfl
  | none =>
    cases hx2 : (if cfg.length > 0 then o.authAddListErr env.ID
        else none) with
    | some e => rfl
    | none =>
      cases hx3 : (if env.FeatureConfigs.length > 0 then
          o.flagAddErr env.ID else none) with
      | some e => rfl
      | none =>
        cases hx4 : (if env.Segments.length > 0 then
            o.segmentAddErr env.ID else none) with
        | some e => rfl
        | none => rfl

/-- Helper: `populateErr?` computed against any starting cache. -/
theorem populateErr?_eq (o : RepoOracles) (env : Environments)
    (c : CacheState) :
    populateErr? o env =
      errOf (populate o c (envHashedKeys env) (envAuthConfig env) env) :=
  errOf_populate_indep o _ _ env emptyCache c

/-- Helper: the populate fold absorbs an error accumulator. -/
theorem foldl_populateStep_error (o : RepoOracles) (l : List Environments)
    (e : String) :
    l.foldl (populateStep o) (.error e) = .error e := by
  induction l with
  | nil => rfl
  | cons env rest ih => exact ih

/-- Helper: the populate fold succeeds exactly when every environment's
goroutine does, and otherwise returns the first goroutine error. -/
theorem foldl_populateStep_spec (o : RepoOracles) (l : List Environments) :
    ∀ c : CacheState,
      (errOf (l.foldl (populateStep o) (.ok c)) = none ↔
        ∀ env ∈ l, populateErr? o env = none)
      ∧ ∀ e, l.findSome? (populateErr? o) = some e →
          l.foldl (populateStep o) (.ok c) = .error e := by
  induction l with
  | nil =>
    intro c
    refine ⟨?_, ?_⟩
    · simp [errOf]
    · intro e he
      simp [List.findSome?] at he
  | cons env rest ih =>
    intro c
    have hstep : (env :: rest).foldl (populateStep o) (.ok c) =
        rest.foldl (populateStep o)
          (populate o c (envHashedKeys env) (envAuthConfig env) env) := rfl
    cases hp : populate o c (envHashedKeys env) (envAuthConfig env) env with
    | ok c1 =>
      have herr : populateErr? o env = none := by
        rw [populateErr?_eq o env c, hp]
        rfl
      refine ⟨?_, ?_⟩
      · rw [hstep, hp]
        rw [(ih c1).1]
        constructor
        · intro hall env' hmem
          rcases List.mem_cons.1 hmem with hmem | hmem
          · subst hmem; exact herr
          · exact hall env' hmem
        · intro hall env' hmem
          exact hall env' (List.mem_cons_of_mem _ hmem)
      · intro e he
        simp only [List.findSome?, herr] at he
        rw [hstep, hp]
        exact (ih c1).2 e he
    | error e0 =>
      have herr : populateErr? o env = some e0 := by
        rw [populateErr?_eq o env c, hp]
        rfl
      refine ⟨?_, ?_⟩
      · rw [hstep, hp, foldl_populateStep_error]
        constructor
        · intro habs
          exact Option.noConfusion habs
        · intro hall
          have hc := hall env (List.mem_cons_self _ _)
          rw [herr] at hc
          exact Option.noConfusion hc
      · intro e he
        simp only [List.findSome?, herr] at he
        have he2 : e0 = e := Option.some.inj he
        subst he2
        rw [hstep, hp, foldl_populateStep_error]

/-- C6 (confirmed): `Populate` returns success exactly when every
per-environment population succeeds; otherwise it returns the first
non-nil error collected from the per-environment error channel
(linearised in traversal order), and the results of environments after
the first failing one cannot affect the returned value. -/
theorem C6_populate_errors (o : RepoOracles) (c : CacheState)
    (pc : List ProxyConfig) :
    (errOf (Populate o c pc) = none ↔
      ∀ env ∈ allEnvs pc, populateErr? o env = none)
    ∧ ∀ e, (allEnvs pc).findSome? (populateErr? o) = some e →
        Populate o c pc = .error e :=
  foldl_populateStep_spec o (allEnvs pc) c

/-- C6 witness: an all-success run reports no error, and a run whose
only environment fails its flag write returns that error. -/
theorem C6_populate_errors_witness :
    errOf (Populate goodRepoOracles emptyCache c6pc) = none
    ∧ Populate c6BadOracles emptyCache c6pc =
        .error "failed to add flag config to cache: flag boom" :=
  ⟨(C6_populate_errors goodRepoOracles emptyCache c6pc).1.mpr
    (by decide),
   (C6_populate_errors c6BadOracles emptyCache c6pc).2
    "failed to add flag config to cache: flag boom" (by decide)⟩

/-- Helper: filtering out another key does not change a lookup. -/
theorem lookup_filter_ne {α : Type} (k k' : String) (hk : k ≠ k')
    (m : List (String × α)) :
    (m.filter (fun p => p.1 != k')).lookup k = m.lookup k := by
  induction m with
  | nil => rfl
  | cons p rest ih =>
    obtain ⟨a, b⟩ := p
    by_cases ha : a = k'
    · subst ha
      have hka : (k == a) = false := by simp [hk]
      simp [List.filter, List.lookup, hka, ih]
    · have ha' : (a != k') = true := by simp [ha]
      simp [List.filter, ha', List.lookup, ih]

/-- Helper: `setAssoc` never removes a present key. -/
theorem lookup_setAssoc_isSome {α : Type} (k' : String) (v : α)
    (m : List (String × α)) (k : String)
    (h : (m.lookup k).isSome = true) :
    ((setAssoc k' v m).lookup k).isSome = true := by
  by_cases hk : k = k'
  · subst hk
    rw [lookup_setAssoc_self]
    rfl
  · have hk' : (k == k') = false := by simp [hk]
    unfold setAssoc
    simp only [List.lookup, hk']
    rw [lookup_filter_ne k k' hk]
    exact h

/-- Helper: records folded into an association list stay present. -/
theorem lookup_foldl_setAssoc_isSome {α : Type}
    (cfgs : List (String × α)) :
    ∀ (m : List (String × α)) (k : String),
      (m.lookup k).isSome = true →
      ((cfgs.foldl (fun m p => setAssoc p.1 p.2 m) m).lookup k).isSome =
        true := by
  induction cfgs with
  | nil => intro m k h; exact h
  | cons p rest ih =>
    intro m k h
    exact ih _ k (lookup_setAssoc_isSome p.1 p.2 m k h)

/-- Helper: every record folded into an association list is present. -/
theorem lookup_foldl_setAssoc_mem {α : Type} (cfgs : List (String × α)) :
    ∀ (m : List (String × α)) (p : String × α), p ∈ cfgs →
      ((cfgs.foldl (fun m q => setAssoc q.1 q.2 m) m).lookup p.1).isSome =
        true := by
  induction cfgs with
  | nil => intro m p hp; cases hp
  | cons q rest ih =>
    intro m p hp
    rcases List.mem_cons.1 hp with hp | hp
    · subst hp
      refine lookup_foldl_setAssoc_isSome rest _ p.1 ?_
      rw [lookup_setAssoc_self]
      rfl
    · exact ih _ p hp

/-- Helper: presence is reflexive. -/
theorem presenceLE_refl (c : CacheState) : presenceLE c c :=
  ⟨fun _ h => h, fun _ h => h, fun _ h => h, fun _ h => h⟩

/-- Helper: presence is transitive. -/
theorem presenceLE_trans {a b c : CacheState} (h1 : presenceLE a b)
    (h2 : presenceLE b c) : presenceLE a c :=
  ⟨fun k h => h2.1 k (h1.1 k h),
   fun k h => h2.2.1 k (h1.2.1 k h),
   fun k h => h2.2.2.1 k (h1.2.2.1 k h),
   fun k h => h2.2.2.2 k (h1.2.2.2 k h)⟩

/-- Helper: every repo write of `populate` only adds presence. -/
theorem authRepoAdd_presenceLE (cfgs : List (String × String))
    (c : CacheState) : presenceLE c (authRepoAdd cfgs c) :=
  ⟨fun k h => lookup_foldl_setAssoc_isSome cfgs c.authRecords k h,
   fun _ h => h, fun _ h => h, fun _ h => h⟩

/-- Helper: setting an environment's key list only adds presence. -/
theorem addAPIConfigs_presenceLE (env : String) (ks : List String)
    (c : CacheState) : presenceLE c (addAPIConfigsForEnvironment env ks c) :=
  ⟨fun _ h => h, fun k h => lookup_setAssoc_isSome env ks _ k h,
   fun _ h => h, fun _ h => h⟩

/-- Helper: setting an environment's flag collection only adds presence. -/
theorem flagRepoAdd_presenceLE (env : String) (cfgs : List String)
    (c : CacheState) : presenceLE c (flagRepoAdd env cfgs c) :=
  ⟨fun _ h => h, fun _ h => h,
   fun k h => lookup_setAssoc_isSome env cfgs _ k h, fun _ h => h⟩

/-- Helper: setting an environment's segment collection only adds
presence. -/
theorem segmentRepoAdd_presenceLE (env : String) (cfgs : List String)
    (c : CacheState) : presenceLE c (segmentRepoAdd env cfgs c) :=
  ⟨fun _ h => h, fun _ h => h, fun _ h => h,
   fun k h => lookup_setAssoc_isSome env cfgs _ k h⟩

/-- Helper: a conditional application of a presence-monotone write is
presence-monotone. -/
theorem presenceLE_ite (b : Prop) [Decidable b] (c : CacheState)
    (f : CacheState → CacheState) (hf : presenceLE c (f c)) :
    presenceLE c (if b then f c else c) := by
  by_cases hb : b
  · rw [if_pos hb]; exact hf
  · rw [if_neg hb]; exact presenceLE_refl c

/-- Helper: a successful `populate` only adds presence to the cache. -/
theorem populate_presenceLE (o : RepoOracles) (c : CacheState)
    (ks : List String) (cfg : List (String × String))
    (env : Environments) (c' : CacheState)
    (h : populate o c ks cfg env = .ok c') : presenceLE c c' := by
  unfold populate at h
  cases hx1 : (if ks.length > 0 then o.authAddErr env.ID else none) with
  | some e => rw [hx1] at h; exact Except.noConfusion h
  | none =>
  rw [hx1] at h
  cases hx2 : (if cfg.length > 0 then o.authAddListErr env.ID
      else none) with
  | some e => rw [hx2] at h; exact Except.noConfusion h
  | none =>
  rw [hx2] at h
  cases hx3 : (if env.FeatureConfigs.length > 0 then o.flagAddErr env.ID
      else none) with
  | some e => rw [hx3] at h; exact Except.noConfusion h
  | none =>
  rw [hx3] at h
  cases hx4 : (if env.Segments.length > 0 then o.segmentAddErr env.ID
      else none) with
  | some e => rw [hx4] at h; exact Except.noConfusion h
  | none =>
  rw [hx4] at h
  have hc' := Except.ok.inj h
  subst hc'
  refine presenceLE_trans (presenceLE_ite (ks.length > 0) c
    (authRepoAdd cfg) (authRepoAdd_presenceLE cfg c)) ?_
  refine presenceLE_trans (presenceLE_ite (cfg.length > 0) _
    (addAPIConfigsForEnvironment env.ID ks)
    (addAPIConfigs_presenceLE env.ID ks _)) ?_
  refine presenceLE_trans (presenceLE_ite (env.FeatureConfigs.length > 0) _
    (flagRepoAdd env.ID env.FeatureConfigs)
    (flagRepoAdd_presenceLE env.ID env.FeatureConfigs _)) ?_
  exact presenceLE_ite (env.Segments.length > 0) _
    (segmentRepoAdd env.ID env.Segments)
    (segmentRepoAdd_presenceLE env.ID env.Segments _)

/-- Helper: presence of an environment's configuration survives
presence-monotone growth. -/
theorem envPopulated_mono {env : Environments} {c c' : CacheState}
    (h : envPopulated env c) (hle : presenceLE c c') :
    envPopulated env c' :=
  ⟨fun k hk => hle.1 _ (h.1 k hk),
   fun hne => hle.2.1 _ (h.2.1 hne),
   fun hne => hle.2.2.1 _ (h.2.2.1 hne),
   fun hne => hle.2.2.2 _ (h.2.2.2 hne)⟩

/-- Helper: a successful `populate` leaves its own environment's
non-empty configuration present. -/
theorem populate_establishes (o : RepoOracles) (c : CacheState)
    (env : Environments) (c' : CacheState)
    (h : populate o c (envHashedKeys env) (envAuthConfig env) env =
      .ok c') : envPopulated env c' := by
  unfold populate at h
  cases hx1 : (if (envHashedKeys env).length > 0 then o.authAddErr env.ID
      else none) with
  | some e => rw [hx1] at h; exact Except.noConfusion h
  | none =>
  rw [hx1] at h
  cases hx2 : (if (envAuthConfig env).length > 0 then
      o.authAddListErr env.ID else none) with
  | some e => rw [hx2] at h; exact Except.noConfusion h
  | none =>
  rw [hx2] at h
  cases hx3 : (if env.FeatureConfigs.length > 0 then o.flagAddErr env.ID
      else none) with
  | some e => rw [hx3] at h; exact Except.noConfusion h
  | none =>
  rw [hx3] at h
  cases hx4 : (if env.Segments.length > 0 then o.segmentAddErr env.ID
      else none) with
  | some e => rw [hx4] at h; exact Except.noConfusion h
  | none =>
  rw [hx4] at h
  have hc' := Except.ok.inj h
  subst hc'
  set c1 := if (envHashedKeys env).length > 0 then
    authRepoAdd (envAuthConfig env) c else c with hc1
  set c2 := if (envAuthConfig env).length > 0 then
    addAPIConfigsForEnvironment env.ID (envHashedKeys env) c1 else c1
    with hc2
  set c3 := if env.FeatureConfigs.length > 0 then
    flagRepoAdd env.ID env.FeatureConfigs c2 else c2 with hc3
  refine ⟨?_, ?_, ?_, ?_⟩
  · intro k hk
    have hlen : (envHashedKeys env).length > 0 := by
      simp [envHashedKeys]
      exact List.length_pos.2 (List.ne_nil_of_mem hk)
    have h1 : ((c1.authRecords).lookup (NewAuthAPIKey k)).isSome = true := by
      rw [hc1, if_pos hlen]
      refine lookup_foldl_setAssoc_mem (envAuthConfig env) c.authRecords
        (NewAuthAPIKey k, env.ID) ?_
      exact List.mem_map_of_mem _ hk
    have h2 : presenceLE c1 c2 := presenceLE_ite
      ((envAuthConfig env).length > 0) c1
      (addAPIConfigsForEnvironment env.ID (envHashedKeys env))
      (addAPIConfigs_presenceLE env.ID (envHashedKeys env) c1)
    have h3 : presenceLE c2 c3 := presenceLE_ite
      (env.FeatureConfigs.length > 0) c2
      (flagRepoAdd env.ID env.FeatureConfigs)
      (flagRepoAdd_presenceLE env.ID env.FeatureConfigs c2)
    have h4 : presenceLE c3 (if env.Segments.length > 0 then
        segmentRepoAdd env.ID env.Segments c3 else c3) :=
      presenceLE_ite (env.Segments.length > 0) c3
        (segmentRepoAdd env.ID env.Segments)
        (segmentRepoAdd_presenceLE env.ID env.Segments c3)
    exact h4.1 _ (h3.1 _ (h2.1 _ h1))
  · intro hne
    have hlen : (envAuthConfig env).length > 0 := by
      simp [envAuthConfig]
      exact List.length_pos.2 hne
    have h1 : ((c2.envApiKeys).lookup env.ID).isSome = true := by
      rw [hc2, if_pos hlen]
      unfold addAPIConfigsForEnvironment
      rw [lookup_setAssoc_self]
      rfl
    have h3 : presenceLE c2 c3 := presenceLE_ite
      (env.FeatureConfigs.length > 0) c2
      (flagRepoAdd env.ID env.FeatureConfigs)
      (flagRepoAdd_presenceLE env.ID env.FeatureConfigs c2)
    have h4 : presenceLE c3 (if env.Segments.length > 0 then
        segmentRepoAdd env.ID env.Segments c3 else c3) :=
      presenceLE_ite (env.Segments.length > 0) c3
        (segmentRepoAdd env.ID env.Segments)
        (segmentRepoAdd_presenceLE env.ID env.Segments c3)
    exact h4.2.1 _ (h3.2.1 _ h1)
  · intro hne
    have hlen : env.FeatureConfigs.length > 0 := List.length_pos.2 hne
    have h1 : ((c3.flags).lookup env.ID).isSome = true := by
      rw [hc3, if_pos hlen]
      unfold flagRepoAdd
      rw [lookup_setAssoc_self]
      rfl
    have h4 : presenceLE c3 (if env.Segments.length > 0 then
        segmentRepoAdd env.ID env.Segments c3 else c3) :=
      presenceLE_ite (env.Segments.length > 0) c3
        (segmentRepoAdd env.ID env.Segments)
        (segmentRepoAdd_presenceLE env.ID env.Segments c3)
    exact h4.2.2.1 _ h1
  · intro hne
    have hlen : env.Segments.length > 0 := List.length_pos.2 hne
    rw [if_pos hlen]
    unfold segmentRepoAdd
    rw [lookup_setAssoc_self]
    rfl

/-- Helper: a successful populate fold only adds presence. -/
theorem foldl_populateStep_presenceLE (o : RepoOracles)
    (l : List Environments) :
    ∀ (c c' : CacheState), l.foldl (populateStep o) (.ok c) = .ok c' →
      presenceLE c c' := by
  induction l with
  | nil =>
    intro c c' h
    have := Except.ok.inj h
    subst this
    exact presenceLE_refl c
  | cons env rest ih =>
    intro c c' h
    have hstep : (env :: rest).foldl (populateStep o) (.ok c) =
        rest.foldl (populateStep o)
          (populate o c (envHashedKeys env) (envAuthConfig env) env) :=
      rfl
    rw [hstep] at h
    cases hp : populate o c (envHashedKeys env) (envAuthConfig env) env with
    | error e =>
      rw [hp, foldl_populateStep_error] at h
      exact Except.noConfusion h
    | ok c1 =>
      rw [hp] at h
      exact presenceLE_trans (populate_presenceLE o c _ _ env c1 hp)
        (ih c1 c' h)

/-- Helper: the populate fold leaves every traversed environment's
configuration present in the final cache. -/
theorem foldl_populateStep_populated (o : RepoOracles)
    (l : List Environments) :
    ∀ (c c' : CacheState), l.foldl (populateStep o) (.ok c) = .ok c' →
      ∀ env ∈ l, envPopulated env c' := by
  induction l with
  | nil => intro c c' _ env hmem; cases hmem
  | cons env0 rest ih =>
    intro c c' h env hmem
    have hstep : (env0 :: rest).foldl (populateStep o) (.ok c) =
        rest.foldl (populateStep o)
          (populate o c (envHashedKeys env0) (envAuthConfig env0) env0) :=
      rfl
    rw [hstep] at h
    cases hp : populate o c (envHashedKeys env0) (envAuthConfig env0)
        env0 with
    | error e =>
      rw [hp, foldl_populateStep_error] at h
      exact Except.noConfusion h
    | ok c1 =>
      rw [hp] at h
      rcases List.mem_cons.1 hmem with hmem | hmem
      · subst hmem
        exact envPopulated_mono (populate_establishes o c env c1 hp)
          (foldl_populateStep_presenceLE o rest c1 c' h)
      · exact ih c1 c' h env hmem

/-- C3 counterexample: for a staged config whose only environment has
empty API-key, feature-config and segment lists, `Populate` succeeds yet
the environment's flag config (and key list and segment config) is absent
from the cache — the `len > 0` guards of `populate` skip empty lists, so
the claim's "including environments whose ... list is empty" fails. -/
theorem C3_counterexample :
    Populate goodRepoOracles emptyCache [⟨[c3Env]⟩] = .ok emptyCache
    ∧ emptyCache.flags.lookup "e1" = none
    ∧ emptyCache.envApiKeys.lookup "e1" = none
    ∧ emptyCache.segments.lookup "e1" = none := by decide

/-- C3 (corrected): whenever `Populate` returns success, every
environment of the staged pages has an auth record for each of its API
keys, and — when the corresponding source list is non-empty — its key
list, its feature-flag config and its segment config present in the
cache; environments with an empty list have nothing stored for that
category. -/
theorem C3_populate_postcondition (o : RepoOracles) (c c' : CacheState)
    (pc : List ProxyConfig) (h : Populate o c pc = .ok c') :
    ∀ env ∈ allEnvs pc, envPopulated env c' :=
  foldl_populateStep_populated o (allEnvs pc) c c' h

set_option maxRecDepth 1000000 in
/-- C3 witness: populating a one-environment page with one key, one flag
config and one segment leaves all three present. -/
theorem C3_populate_postcondition_witness :
    (c3res.envApiKeys.lookup "e2").isSome = true
    ∧ (c3res.flags.lookup "e2").isSome = true
    ∧ (c3res.segments.lookup "e2").isSome = true :=
  ⟨((C3_populate_postcondition goodRepoOracles emptyCache c3res c3pc
      (by decide) ⟨"e2", ["k"], ["f"], ["s"]⟩ (by decide)).2.1
      (by decide)),
   ((C3_populate_postcondition goodRepoOracles emptyCache c3res c3pc
      (by decide) ⟨"e2", ["k"], ["f"], ["s"]⟩ (by decide)).2.2.1
      (by decide)),
   ((C3_populate_postcondition goodRepoOracles emptyCache c3res c3pc
      (by decide) ⟨"e2", ["k"], ["f"], ["s"]⟩ (by decide)).2.2.2
      (by decide))⟩

/-- C10 witness: a one-environment API-key message is handled to a
defined result. -/
theorem C10_apikey_defined_witness :
    (HandleMessage goodRefOracles emptyCache
      ⟨MsgDomainProxy, EventAPIKeyAdded, "", ["env1"], "k"⟩).isSome =
      true :=
  C10_apikey_defined goodRefOracles emptyCache
    ⟨MsgDomainProxy, EventAPIKeyAdded, "", ["env1"], "k"⟩ rfl
    (Or.inl rfl) (by decide)

/-- C9 counterexample: on the non-empty token `"abc"` with no `'.'`
separator, `strings.Split(token, ".")` yields a single segment and the
unchecked index `[1]` panics, so `parseAuthToken` crashes (`none`) rather
than returning an error — and the panic propagates through
`FetchAndPopulate`. -/
theorem C9_counterexample :
    parseAuthToken nilTokenOracles "abc" = none
    ∧ FetchAndPopulate c9AbcRemote emptyCache = none := by decide

/-- C9 (corrected): `parseAuthToken` evaluates to a defined
(accountID, error) result for the empty token and for every token whose
`'.'`-split has a payload segment (bad base64 and missing `account`
claims yield errors); for such tokens a `parseAuthToken` failure never
changes the result of `FetchAndPopulate`.  A non-empty token with no
`'.'` panics instead. -/
theorem C9_parse_token_safety (token : String) :
    (∀ o : TokenOracles, token = "" ∨ 1 < (goSplitDot token).length →
      (parseAuthToken o token).isSome = true)
    ∧ (∀ (ro : RemoteOracles) (c : CacheState) (t₁ t₂ : TokenOracles)
        (cluster : String), ro.authResult = .ok (token, cluster) →
        (parseAuthToken t₁ token).isSome = true →
        (parseAuthToken t₂ token).isSome = true →
        FetchAndPopulate (withTok ro t₁) c =
          FetchAndPopulate (withTok ro t₂) c) := by
  constructor
  · intro o h
    unfold parseAuthToken
    rcases h with h | h
    · rw [if_pos h]
      rfl
    · by_cases ht : token = ""
      · rw [if_pos ht]
        rfl
      · rw [if_neg ht, dif_pos h]
        rfl
  · intro ro c t₁ t₂ cluster hro h1 h2
    rcases Option.isSome_iff_exists.1 h1 with ⟨r1, hr1⟩
    rcases Option.isSome_iff_exists.1 h2 with ⟨r2, hr2⟩
    unfold FetchAndPopulate
    simp only [withTok]
    rw [hro]
    cases hR : ro.retrieveResult with
    | error e => rfl
    | ok pcs =>
      simp only [notifySDKs, hr1, hr2]

/-- C9 witness: a two-segment token parses to a defined result under
failing decode oracles, and swapping the token oracles does not change
`FetchAndPopulate`. -/
theorem C9_parse_token_safety_witness :
    (parseAuthToken nilTokenOracles "a.b").isSome = true
    ∧ FetchAndPopulate (withTok c9Remote nilTokenOracles) emptyCache =
        FetchAndPopulate (withTok c9Remote okTokenOracles) emptyCache :=
  ⟨(C9_parse_token_safety "a.b").1 nilTokenOracles (Or.inr (by decide)),
   (C9_parse_token_safety "a.b").2 c9Remote emptyCache nilTokenOracles
     okTokenOracles "1" rfl (by decide) (by decide)⟩

set_option maxRecDepth 1000000 in
/-- C1 counterexample: handling `api-key-added` then `api-key-removed`
for the same environment `"env1"` and raw key `"key1"` succeeds on both
messages, yet the auth record stored under the hashed key
`NewAuthAPIKey "key1"` is still present afterwards — the removal deletes
the literal key `auth-key-key1`, not the hashed one, refuting the claim
that the add followed by the remove leaves no auth record for the key. -/
theorem C1_counterexample :
    finalAuthLookup goodRefOracles "env1" "key1" = some (some "env1") := by
  decide

/-- C1 (corrected): `api-key-added` stores the auth record under the
SHA-256-hashed key `auth-key-<hex>`, but `api-key-removed` removes the
record under the literal key `auth-key-<apiKey>`; hence whenever the raw
key differs from its own hashed form, the add followed by the remove
with the same raw key succeeds yet leaves the hashed auth record in the
repo (the record would be removed only by a removal carrying the hex
digest itself). -/
theorem C1_apikey_lifecycle (env k : String) (o : RefresherOracles)
    (hk : "auth-key-" ++ k ≠ NewAuthAPIKey k)
    (hA : o.authAddErr = none) (hR : o.authRemoveErr = none)
    (hP : o.patchErr = none) :
    finalAuthLookup o env k = some (some env) := by
  have hk' : ((NewAuthAPIKey k) == ("auth-key-" ++ k)) = false := by
    simp
    exact Ne.symm hk
  simp [finalAuthLookup, HandleMessage, handleProxyMessage,
    handleAddApiKeyEvent, handleRemoveApiKeyEvent, hA, hR, hP,
    MsgDomainProxy, MsgDomainFeature, MsgDomainSegment,
    EventAPIKeyAdded, EventAPIKeyRemoved, EventProxyKeyDeleted,
    EventEnvironmentAdded, EventEnvironmentRemoved, Except.mapError,
    authRepoAdd, authRepoRemove, patchAPIConfigForEnvironment,
    setAssoc, emptyCache, List.lookup, List.filter, hk',
    decide_eq_false (Ne.symm hk)]

set_option maxRecDepth 1000000 in
/-- C1 witness: the amended lifecycle at environment `"env1"` and key
`"key1"`, whose hashed form differs from the raw key. -/
theorem C1_apikey_lifecycle_witness :
    finalAuthLookup goodRefOracles "env1" "key1" = some (some "env1") :=
  C1_apikey_lifecycle "env1" "key1" goodRefOracles (by decide) rfl rfl rfl

/-- C7 counterexample: storing a request into a queue whose sub-buffers
already exceed the cap changes the sub-buffer to hold exactly the
incoming entry's data (the claim says the incoming data is not added and
the sub-buffer merely resets), and the previously held contents are
pushed onto the output channel during the `StoreMetrics` call itself,
not on the next flush tick.  This behaviour is pinned by the test "Given
I call StoreMetrics and we've already exceeded the max queue size" in
src/clients/metrics_service/queue_test.go. -/
theorem C7_counterexample :
    (StoreMetrics 10 10 c7pre mr123full).metricsData.entries ≠
      c7pre.metricsData.entries
    ∧ (StoreMetrics 10 10 c7pre mr123full).metricsData.entries.lookup
        "123" = some (evalPart mr123full)
    ∧ (StoreMetrics 10 10 c7pre mr123full).out =
        [[("123", mr123full)], [("123", mr123full)]] := by decide

/-- C7 (corrected): on `StoreMetrics`, each sub-buffer independently:
when it already exceeds its cap, its held contents are emitted
immediately onto the output channel, its size is reset, and the incoming
entry's data for that sub-buffer is stored into the emptied buffer; when
it does not exceed the cap the incoming data is aggregated in place; nil
data is never stored. -/
theorem C7_store_metrics_cap (maxE maxT : Nat) (q : QueueState)
    (m : MetricsReq) :
    (m.MetricsData.isSome = true → q.metricsData.currentSize > maxE →
      (StoreMetrics maxE maxT q m).metricsData =
        addToBuffer emptyBuffer (evalPart m)
      ∧ q.metricsData.entries ∈ (StoreMetrics maxE maxT q m).out)
    ∧ (m.TargetData.isSome = true → q.targetData.currentSize > maxT →
      (StoreMetrics maxE maxT q m).targetData =
        addToBuffer emptyBuffer (targetPart m)
      ∧ q.targetData.entries ∈ (StoreMetrics maxE maxT q m).out)
    ∧ (m.MetricsData = none →
      (StoreMetrics maxE maxT q m).metricsData = q.metricsData)
    ∧ (m.TargetData = none →
      (StoreMetrics maxE maxT q m).targetData = q.targetData)
    ∧ (m.MetricsData.isSome = true →
      ¬q.metricsData.currentSize > maxE →
      (StoreMetrics maxE maxT q m).metricsData =
        addToBuffer q.metricsData (evalPart m))
    ∧ (m.TargetData.isSome = true → ¬q.targetData.currentSize > maxT →
      (StoreMetrics maxE maxT q m).targetData =
        addToBuffer q.targetData (targetPart m)) := by
  refine ⟨?_, ?_, ?_, ?_, ?_, ?_⟩
  · intro hm hx
    rcases Option.isSome_iff_exists.1 hm with ⟨md, hmd⟩
    cases ht : m.TargetData with
    | none =>
      constructor <;>
        simp [StoreMetrics, hmd, ht, hx]
    | some td =>
      by_cases hxt : q.targetData.currentSize > maxT <;>
        constructor <;>
        simp [StoreMetrics, hmd, ht, hx, hxt]
  · intro hm hx
    rcases Option.isSome_iff_exists.1 hm with ⟨td, htd⟩
    cases hmd : m.MetricsData with
    | none =>
      constructor <;> simp [StoreMetrics, hmd, htd, hx]
    | some md =>
      by_cases hxe : q.metricsData.currentSize > maxE <;>
        constructor <;>
        simp [StoreMetrics, hmd, htd, hx, hxe]
  · intro hm
    cases ht : m.TargetData with
    | none => simp [StoreMetrics, hm, ht]
    | some td =>
      by_cases hxt : q.targetData.currentSize > maxT <;>
        simp [StoreMetrics, hm, ht, hxt]
  · intro ht
    cases hmd : m.MetricsData with
    | none => simp [StoreMetrics, hmd, ht]
    | some md =>
      by_cases hxe : q.metricsData.currentSize > maxE <;>
        simp [StoreMetrics, hmd, ht, hxe]
  · intro hm hx
    rcases Option.isSome_iff_exists.1 hm with ⟨md, hmd⟩
    cases ht : m.TargetData with
    | none => simp [StoreMetrics, hmd, ht, hx]
    | some td =>
      by_cases hxt : q.targetData.currentSize > maxT <;>
        simp [StoreMetrics, hmd, ht, hx, hxt]
  · intro hm hx
    rcases Option.isSome_iff_exists.1 hm with ⟨td, htd⟩
    cases hmd : m.MetricsData with
    | none => simp [StoreMetrics, hmd, htd, hx]
    | some md =>
      by_cases hxe : q.metricsData.currentSize > maxE <;>
        simp [StoreMetrics, hmd, htd, hx, hxe]

/-- C7 witness: the corrected cap policy at the over-cap queue of the
counterexample. -/
theorem C7_store_metrics_cap_witness :
    (StoreMetrics 10 10 c7pre mr123full).metricsData =
      addToBuffer emptyBuffer (evalPart mr123full)
    ∧ c7pre.metricsData.entries ∈ (StoreMetrics 10 10 c7pre mr123full).out
    ∧ (StoreMetrics 10 10 c7pre mr123full).targetData =
      addToBuffer emptyBuffer (targetPart mr123full) :=
  ⟨((C7_store_metrics_cap 10 10 c7pre mr123full).1 (by decide)
      (by decide)).1,
   ((C7_store_metrics_cap 10 10 c7pre mr123full).1 (by decide)
      (by decide)).2,
   ((C7_store_metrics_cap 10 10 c7pre mr123full).2.1 (by decide)
      (by decide)).1⟩

end FFProxy
